import Mathlib

/-!
Shallow embedding of `lights.c` (SC-02C liblights HAL module).

The source is a small Android lights HAL: a color/brightness codec
(`is_lit`, `rgb_to_brightness`), three set-light handlers protected by one
process-wide mutex (`set_light_backlight`, `set_light_buttons`,
`set_light_notifications`), a sysfs writer primitive (`write_int`) with a
one-shot warning-suppression flag, and a device factory (`open_lights`).

C machine integers are embedded as `Nat`/`Int` with explicit `% 2^32`
where 32-bit wraparound matters.  Sysfs writes are embedded as an oracle
`wr : String → Int → Int` giving the result `write_int` would return for a
given (path, value) pair, plus an explicit list of the writes a handler
performs.  Each handler returns `(return value, writes performed, new
shared state)`.
-/

namespace Lights

/-- Interpret a natural number as a 32-bit two's-complement `int`, the way C
stores an `unsigned int` value into an `int` (gcc wrapping behavior). -/
def toInt32 (n : Nat) : Int :=
  if n % 2 ^ 32 < 2 ^ 31 then ((n % 2 ^ 32 : Nat) : Int)
  else ((n % 2 ^ 32 : Nat) : Int) - 2 ^ 32

/-- GENERIC_BLN code: button/notification file "on". -/
def BLN_LIGHT_ON : Int := 1
/-- GENERIC_BLN code: button/notification file "off". -/
def BLN_LIGHT_OFF : Int := 2
/-- Primary notification file code "on". -/
def BLN_NOTIFY_ON : Int := 1
/-- Primary notification file code "off". -/
def BLN_NOTIFY_OFF : Int := 0
/-- CM7 secondary notification-backlight code "enable". -/
def CM7_ENABLE_BL : Int := 1
/-- CM7 secondary notification-backlight code "disable". -/
def CM7_DISABLE_BL : Int := 2

/-- Linux `EINVAL` error number. -/
def EINVAL : Int := 22

def LCD_FILE : String := "/sys/class/backlight/pwm-backlight/brightness"

def KEYBOARD_FILE : String := "/sys/class/leds/keyboard-backlight/brightness"

def BUTTON_FILE : String := "/sys/class/misc/melfas_touchkey/brightness"

def NOTIFICATION_FILE : String := "/sys/class/misc/backlightnotification/notification_led"

def CM7_NOTIFICATION_FILE : String := "/sys/class/misc/notification/led"

/-- `struct light_state_t` from the external Android header `hardware/lights.h`:
`color` is a 32-bit `unsigned int`, the remaining fields are `int`s that this
module copies but never reads. -/
structure LightState where
  color : Nat
  flashMode : Int
  flashOnMS : Int
  flashOffMS : Int
  brightnessMode : Int
deriving DecidableEq

/-- The process-wide mutable globals of `lights.c`:
`g_notification`, `g_backlight` (initialized to 255), `g_buttons`
(initialized to 0). -/
structure SharedState where
  g_notification : LightState
  g_backlight : Int
  g_buttons : Int
deriving DecidableEq

/-- Initial values of the globals (`g_backlight = 255`, `g_buttons = 0`,
`g_notification` zero-initialized static storage). -/
def initState : SharedState :=
  { g_notification := ⟨0, 0, 0, 0, 0⟩, g_backlight := 255, g_buttons := 0 }

/-- `is_lit`: `return state->color & 0xffffffff;` — the masked 32-bit color
converted to the C `int` return type. -/
def is_lit (color : Nat) : Int :=
  toInt32 (color &&& 0xffffffff)

/-- `rgb_to_brightness`: mask the color to its low 24 bits, then
`(77*R + 150*G + 29*B) >> 8` on the three bytes (all arithmetic fits in a
non-negative `int`, so `Nat` is exact). -/
def rgb_to_brightness (color : Nat) : Nat :=
  (77 * (((color &&& 0x00ffffff) >>> 16) &&& 0x00ff)
    + 150 * (((color &&& 0x00ffffff) >>> 8) &&& 0x00ff)
    + 29 * ((color &&& 0x00ffffff) &&& 0x00ff)) >>> 8

/-- `set_light_backlight`: under the lock, store the brightness in
`g_backlight`, write it to `LCD_FILE`, and return the writer's result. -/
def set_light_backlight (wr : String → Int → Int) (st : SharedState)
    (s : LightState) : Int × List (String × Int) × SharedState :=
  let brightness := rgb_to_brightness s.color
  let st' := { st with g_backlight := (brightness : Int) }
  (wr LCD_FILE (brightness : Int), [(LCD_FILE, (brightness : Int))], st')

/-- `set_light_buttons`: under the lock, store `on = is_lit(state)` in
`g_buttons`, then write `BLN_LIGHT_ON` (1) when `on` is truthy else
`BLN_LIGHT_OFF` (2) to `BUTTON_FILE`, returning the writer's result. -/
def set_light_buttons (wr : String → Int → Int) (st : SharedState)
    (s : LightState) : Int × List (String × Int) × SharedState :=
  let onv := is_lit s.color
  let st' := { st with g_buttons := onv }
  let v : Int := if onv ≠ 0 then BLN_LIGHT_ON else BLN_LIGHT_OFF
  (wr BUTTON_FILE v, [(BUTTON_FILE, v)], st')

/-- `set_light_notifications`: under the lock, copy the full state into
`g_notification`, write on/off to the primary `NOTIFICATION_FILE`, then run
the secondary-backlight heuristic: if `brightness + state->color == 0`
(32-bit unsigned arithmetic, `brightness` is non-negative) or
`brightness > 100`, write enable/disable to `CM7_NOTIFICATION_FILE`
according to whether the RGB-only portion of the color is nonzero.
The function returns 0 unconditionally. -/
def set_light_notifications (wr : String → Int → Int) (st : SharedState)
    (s : LightState) : Int × List (String × Int) × SharedState :=
  let st' := { st with g_notification := s }
  let v1 : Int := if is_lit s.color ≠ 0 then BLN_NOTIFY_ON else BLN_NOTIFY_OFF
  let _e1 := wr NOTIFICATION_FILE v1
  let brightness := rgb_to_brightness s.color
  if (brightness + s.color) % 2 ^ 32 = 0 ∨ brightness > 100 then
    if s.color &&& 0x00ffffff ≠ 0 then
      let _e2 := wr CM7_NOTIFICATION_FILE CM7_ENABLE_BL
      (0, [(NOTIFICATION_FILE, v1), (CM7_NOTIFICATION_FILE, CM7_ENABLE_BL)],
        st')
    else
      let _e2 := wr CM7_NOTIFICATION_FILE CM7_DISABLE_BL
      (0, [(NOTIFICATION_FILE, v1), (CM7_NOTIFICATION_FILE, CM7_DISABLE_BL)],
        st')
  else
    (0, [(NOTIFICATION_FILE, v1)], st')

/-- Handler selected by `open_lights`. -/
inductive Handler where
  | backlight
  | buttons
  | notify
deriving DecidableEq

/-- Device name constant from the external Android header
`hardware/lights.h`. -/
def LIGHT_ID_BACKLIGHT : String := "backlight"

/-- Device name constant from the external Android header
`hardware/lights.h`. -/
def LIGHT_ID_BUTTONS : String := "buttons"

/-- Device name constant from the external Android header
`hardware/lights.h`. -/
def LIGHT_ID_NOTIFICATIONS : String := "notifications"

/-- `open_lights`: resolve the device name to a handler; on an unknown name
return `-EINVAL` before any allocation or state change.  The shared state
is passed through to express that `open_lights` never touches the light
globals (on the error path it returns before doing anything at all). -/
def open_lights (name : String) (st : SharedState) :
    Except Int Handler × SharedState :=
  if name = LIGHT_ID_BACKLIGHT then (Except.ok Handler.backlight, st)
  else if name = LIGHT_ID_BUTTONS then (Except.ok Handler.buttons, st)
  else if name = LIGHT_ID_NOTIFICATIONS then (Except.ok Handler.notify, st)
  else (Except.error (-EINVAL), st)

/-- Environment outcome of one `write_int` call: the path and value passed,
whether `open(path, O_RDWR)` succeeds, the return value of `write` (`-1` on
failure), and the `errno` value the OS leaves behind. -/
structure WriteOutcome where
  path : String
  value : Int
  openOk : Bool
  writeRet : Int
  errno : Nat
deriving DecidableEq

/-- `write_int`, with the `static int already_warned` flag made explicit.
Returns `(result, new flag, whether the warning was emitted on this call)`.
On a successful open: result is `-errno` if `write` returned `-1`, else 0;
no warning.  On open failure: warn only if the flag is still 0, set the
flag, and return `-errno`. -/
def write_int (already_warned : Nat) (o : WriteOutcome) : Int × Nat × Bool :=
  if o.openOk then
    (if o.writeRet = -1 then -(o.errno : Int) else 0, already_warned, false)
  else if already_warned = 0 then
    (-(o.errno : Int), 1, true)
  else
    (-(o.errno : Int), already_warned, false)

/-- The return value of `write_int`, which does not depend on the warning
flag: `-errno` on open failure or write failure, 0 otherwise. -/
def resultOf (o : WriteOutcome) : Int :=
  if o.openOk then (if o.writeRet = -1 then -(o.errno : Int) else 0)
  else -(o.errno : Int)

/-- Run a sequence of `write_int` calls threading the single shared
`already_warned` flag; collect `(result, warned?)` per call. -/
def runWrites (already_warned : Nat) : List WriteOutcome → List (Int × Bool)
  | [] => []
  | o :: os =>
    ((write_int already_warned o).1, (write_int already_warned o).2.2)
      :: runWrites (write_int already_warned o).2.1 os

/-- Number of calls in a run that emitted the open-failure warning. -/
def warnCount : List (Int × Bool) → Nat
  | [] => 0
  | r :: rs => (if r.2 then 1 else 0) + warnCount rs

/-!
Concurrency model.  Each handler body is, at the level of the shared lock,
a straight-line program over three kinds of atomic actions: acquiring the
single `g_lock`, doing a step of work (a shared-state update or a sysfs
write), and releasing `g_lock`.  Two caller threads each run one handler
program; `Step` is the interleaving semantics in which `lock` only fires
when no thread holds the lock and `unlock` only fires for the holder.
-/

/-- One atomic action of a handler body. -/
inductive Action where
  | lock
  | unlock
  | work
deriving DecidableEq

/-- `set_light_backlight` at the lock level:
lock; `g_backlight = brightness`; `write_int(LCD_FILE, …)`; unlock. -/
def prog_set_light_backlight : List Action :=
  [Action.lock, Action.work, Action.work, Action.unlock]

/-- `set_light_buttons` at the lock level:
lock; `g_buttons = on`; `write_int(BUTTON_FILE, …)`; unlock. -/
def prog_set_light_buttons : List Action :=
  [Action.lock, Action.work, Action.work, Action.unlock]

/-- `set_light_notifications` at the lock level: lock; `g_notification =
*state`; `write_int(NOTIFICATION_FILE, …)`; possible
`write_int(CM7_NOTIFICATION_FILE, …)`; unlock. -/
def prog_set_light_notifications : List Action :=
  [Action.lock, Action.work, Action.work, Action.work, Action.unlock]

/-- The three handler bodies dispatched by `open_lights`. -/
def handlerProgs : List (List Action) :=
  [prog_set_light_backlight, prog_set_light_buttons,
    prog_set_light_notifications]

/-- A configuration of two threads: each thread's program counter and the
holder of the single shared lock (`none` = free, `some false` = thread 0,
`some true` = thread 1). -/
structure Config where
  pc0 : Nat
  pc1 : Nat
  holder : Option Bool
deriving DecidableEq

/-- Interleaving small-step semantics of two threads running programs `p0`
and `p1` under one mutex: a `lock` action fires only when the lock is free
and makes the thread the holder; `unlock` fires only for the holder and
frees the lock; `work` actions are always enabled for the running thread. -/
inductive Step (p0 p1 : List Action) : Config → Config → Prop where
  | work0 {c : Config} : p0.get? c.pc0 = some Action.work →
      Step p0 p1 c ⟨c.pc0 + 1, c.pc1, c.holder⟩
  | lock0 {c : Config} : p0.get? c.pc0 = some Action.lock →
      c.holder = none → Step p0 p1 c ⟨c.pc0 + 1, c.pc1, some false⟩
  | unlock0 {c : Config} : p0.get? c.pc0 = some Action.unlock →
      c.holder = some false → Step p0 p1 c ⟨c.pc0 + 1, c.pc1, none⟩
  | work1 {c : Config} : p1.get? c.pc1 = some Action.work →
      Step p0 p1 c ⟨c.pc0, c.pc1 + 1, c.holder⟩
  | lock1 {c : Config} : p1.get? c.pc1 = some Action.lock →
      c.holder = none → Step p0 p1 c ⟨c.pc0, c.pc1 + 1, some true⟩
  | unlock1 {c : Config} : p1.get? c.pc1 = some Action.unlock →
      c.holder = some true → Step p0 p1 c ⟨c.pc0, c.pc1 + 1, none⟩

/-- Both threads start at the top of their handler with the lock free. -/
def initConfig : Config := ⟨0, 0, none⟩

/-- Configurations reachable from the initial one by interleaved steps. -/
def Reachable (p0 p1 : List Action) (c : Config) : Prop :=
  Relation.ReflTransGen (Step p0 p1) initConfig c

/-- A thread at program counter `pc` of program `p` is inside its critical
section when it has executed more `lock`s than `unlock`s so far. -/
def inCS (p : List Action) (pc : Nat) : Prop :=
  (p.take pc).count Action.unlock < (p.take pc).count Action.lock

/-- Lock-ownership invariant: a thread is inside its critical section only
when it is the recorded holder of the shared lock. -/
def Inv (p0 p1 : List Action) (c : Config) : Prop :=
  (inCS p0 c.pc0 → c.holder = some false)
    ∧ (inCS p1 c.pc1 → c.holder = some true)

/-- A sysfs-write oracle on which every write succeeds. -/
def zeroWriter : String → Int → Int := fun _ _ => 0

/-- Two `write_int` calls on different control files whose `open` both
fail (errno 2 and 13). -/
def demoFailures : List WriteOutcome :=
  [⟨LCD_FILE, 255, false, 0, 2⟩, ⟨BUTTON_FILE, 1, false, 0, 13⟩]

/-! Helper lemmas. -/

theorem rgb_to_brightness_le (color : Nat) : rgb_to_brightness color ≤ 255 := by
  unfold rgb_to_brightness
  have hR : ((color &&& 0x00ffffff) >>> 16) &&& 0x00ff ≤ 0x00ff :=
    Nat.and_le_right
  have hG : ((color &&& 0x00ffffff) >>> 8) &&& 0x00ff ≤ 0x00ff :=
    Nat.and_le_right
  have hB : (color &&& 0x00ffffff) &&& 0x00ff ≤ 0x00ff := Nat.and_le_right
  rw [Nat.shiftRight_eq_div_pow]
  have h2 : (2 : Nat) ^ 8 = 256 := by norm_num
  rw [h2]
  omega

set_option maxRecDepth 100000 in
/-- The only brightness value `b` in `[1, 255]` that is a fixed point of
`rgb_to_brightness (2^32 - b)` is 229: the key fact behind the nonzero
solution of `brightness + color == 0` in 32-bit arithmetic. -/
theorem brightness_wrap_unique :
    ∀ b : Nat, b < 256 → 1 ≤ b → rgb_to_brightness (2 ^ 32 - b) = b →
      b = 229 := by decide

theorem write_int_fst (w : Nat) (o : WriteOutcome) :
    (write_int w o).1 = resultOf o := by
  unfold write_int resultOf
  by_cases h : o.openOk
  · simp [h]
  · simp [h]
    split <;> rfl

theorem runWrites_map_fst (w : Nat) (os : List WriteOutcome) :
    (runWrites w os).map Prod.fst = os.map resultOf := by
  induction os generalizing w with
  | nil => rfl
  | cons o os ih => simp [runWrites, write_int_fst, ih]

theorem is_lit_ne_zero_iff (color : Nat) (h : color < 2 ^ 32) :
    is_lit color ≠ 0 ↔ color ≠ 0 := by
  have hmask : color &&& 0xffffffff = color := by
    have h2 := Nat.and_pow_two_sub_one_eq_mod color 32
    rw [Nat.mod_eq_of_lt h] at h2
    norm_num at h2
    exact h2
  unfold is_lit toInt32
  rw [hmask, Nat.mod_eq_of_lt h]
  split <;> omega

theorem write_int_openOk (w : Nat) (o : WriteOutcome) (h : o.openOk = true) :
    write_int w o = (resultOf o, w, false) := by
  unfold write_int resultOf
  simp [h]

theorem write_int_openFail_warned (w : Nat) (o : WriteOutcome)
    (h : o.openOk = false) (hw : w ≠ 0) :
    write_int w o = (-(o.errno : Int), w, false) := by
  unfold write_int
  simp [h, hw]

theorem write_int_openFail_fresh (o : WriteOutcome) (h : o.openOk = false) :
    write_int 0 o = (-(o.errno : Int), 1, true) := by
  unfold write_int
  simp [h]

theorem runWrites_no_warn_of_warned (os : List WriteOutcome) (w : Nat)
    (hw : w ≠ 0) : warnCount (runWrites w os) = 0 := by
  induction os generalizing w with
  | nil => rfl
  | cons o os ih =>
    unfold runWrites
    by_cases h : o.openOk
    · rw [write_int_openOk w o h]
      simpa [warnCount] using ih w hw
    · rw [write_int_openFail_warned w o (by simpa using h) hw]
      simpa [warnCount] using ih w hw

theorem warnCount_le_one (os : List WriteOutcome) :
    warnCount (runWrites 0 os) ≤ 1 := by
  induction os with
  | nil => simp [runWrites, warnCount]
  | cons o os ih =>
    unfold runWrites
    by_cases h : o.openOk
    · rw [write_int_openOk 0 o h]
      simpa [warnCount] using ih
    · rw [write_int_openFail_fresh o (by simpa using h)]
      have h1 := runWrites_no_warn_of_warned os 1 (by omega)
      simp [warnCount, h1]

theorem count_take_succ {p : List Action} {pc : Nat} {a : Action}
    (h : p.get? pc = some a) (b : Action) :
    (p.take (pc + 1)).count b
      = (p.take pc).count b + (if a = b then 1 else 0) := by
  rw [List.get?_eq_getElem?] at h
  rw [List.take_succ, h]
  simp [List.count_append, List.count_singleton']

theorem inCS_succ_work {p : List Action} {pc : Nat}
    (h : p.get? pc = some Action.work) : inCS p (pc + 1) ↔ inCS p pc := by
  unfold inCS
  rw [count_take_succ h Action.lock, count_take_succ h Action.unlock]
  simp

theorem not_inCS_succ_unlock {p : List Action} {pc : Nat}
    (hl : p.count Action.lock ≤ 1) (h : p.get? pc = some Action.unlock) :
    ¬ inCS p (pc + 1) := by
  unfold inCS
  rw [count_take_succ h Action.lock, count_take_succ h Action.unlock]
  have hle : (p.take pc).count Action.lock ≤ p.count Action.lock :=
    (List.take_sublist pc p).count_le _
  simp
  omega

theorem inv_step {p0 p1 : List Action} (hl0 : p0.count Action.lock ≤ 1)
    (hl1 : p1.count Action.lock ≤ 1) {c c' : Config}
    (hs : Step p0 p1 c c') (hi : Inv p0 p1 c) : Inv p0 p1 c' := by
  obtain ⟨hi0, hi1⟩ := hi
  cases hs with
  | work0 h =>
    exact ⟨fun h' => hi0 ((inCS_succ_work h).mp h'), hi1⟩
  | lock0 h hfree =>
    exact ⟨fun _ => rfl, fun h' => absurd (hi1 h') (by simp [hfree])⟩
  | unlock0 h hhold =>
    refine ⟨fun h' => absurd h' (not_inCS_succ_unlock hl0 h), fun h' => ?_⟩
    have h2 := hi1 h'
    rw [hhold] at h2
    exact absurd h2 (by simp)
  | work1 h =>
    exact ⟨hi0, fun h' => hi1 ((inCS_succ_work h).mp h')⟩
  | lock1 h hfree =>
    exact ⟨fun h' => absurd (hi0 h') (by simp [hfree]), fun _ => rfl⟩
  | unlock1 h hhold =>
    refine ⟨fun h' => ?_, fun h' => absurd h' (not_inCS_succ_unlock hl1 h)⟩
    have h2 := hi0 h'
    rw [hhold] at h2
    exact absurd h2 (by simp)

theorem inv_reachable {p0 p1 : List Action} (hl0 : p0.count Action.lock ≤ 1)
    (hl1 : p1.count Action.lock ≤ 1) {c : Config}
    (hr : Reachable p0 p1 c) : Inv p0 p1 c := by
  unfold Reachable at hr
  induction hr with
  | refl =>
    exact ⟨fun h => absurd h (by simp [inCS, initConfig]),
      fun h => absurd h (by simp [inCS, initConfig])⟩
  | tail _ hstep ih => exact inv_step hl0 hl1 hstep ih

/-! Claim theorems. -/

/-- C2: for every 32-bit color, `is_lit` returns a nonzero truth value iff
the full unmasked 32-bit color value is nonzero, alpha/top byte included. -/
theorem c2_is_lit_iff_nonzero (color : Nat) (h : color < 2 ^ 32) :
    is_lit color ≠ 0 ↔ color ≠ 0 :=
  is_lit_ne_zero_iff color h

/-- Witness for C2 at the alpha-only color `0xFF000000`. -/
theorem c2_witness :
    is_lit 0xFF000000 ≠ 0 ↔ (0xFF000000 : Nat) ≠ 0 :=
  c2_is_lit_iff_nonzero 0xFF000000 (by norm_num)

/-- C3: `rgb_to_brightness` equals `(77*R + 150*G + 29*B) >> 8` on the
bytes 2, 1, 0 of the lower 24 bits of the color; the result is at most 255;
and the top byte is masked off, so the result depends only on the low
24 bits. -/
theorem c3_rgb_to_brightness_formula (color : Nat) :
    rgb_to_brightness color
      = (77 * (((color &&& 0x00ffffff) >>> 16) &&& 0x00ff)
          + 150 * (((color &&& 0x00ffffff) >>> 8) &&& 0x00ff)
          + 29 * ((color &&& 0x00ffffff) &&& 0x00ff)) >>> 8
    ∧ rgb_to_brightness color ≤ 255
    ∧ rgb_to_brightness color = rgb_to_brightness (color &&& 0x00ffffff) := by
  refine ⟨rfl, rgb_to_brightness_le color, ?_⟩
  unfold rgb_to_brightness
  simp [Nat.and_assoc]

/-- C5: `set_light_notifications` returns 0 for every state, every prior
shared state, and every outcome of its internal sysfs writes. -/
theorem c5_notifications_always_zero (wr : String → Int → Int)
    (st : SharedState) (s : LightState) :
    (set_light_notifications wr st s).1 = 0 := by
  unfold set_light_notifications
  dsimp only
  split
  · split <;> rfl
  · rfl

/-- C6: `set_light_backlight` returns exactly the result of its single
write to `LCD_FILE`, and the recorded `g_backlight` equals the requested
brightness regardless of that result (no rollback on failure). -/
theorem c6_backlight_result_and_state (wr : String → Int → Int)
    (st : SharedState) (s : LightState) :
    (set_light_backlight wr st s).1
        = wr LCD_FILE ((rgb_to_brightness s.color : Nat) : Int)
    ∧ (set_light_backlight wr st s).2.2.g_backlight
        = ((rgb_to_brightness s.color : Nat) : Int) :=
  ⟨rfl, rfl⟩

/-- C7: `open_lights` on any name other than the three known device names
fails with `-EINVAL`, produces no handler, and leaves the shared state
untouched. -/
theorem c7_open_unknown_name (name : String) (st : SharedState)
    (h1 : name ≠ LIGHT_ID_BACKLIGHT) (h2 : name ≠ LIGHT_ID_BUTTONS)
    (h3 : name ≠ LIGHT_ID_NOTIFICATIONS) :
    open_lights name st = (Except.error (-EINVAL), st) := by
  unfold open_lights
  rw [if_neg h1, if_neg h2, if_neg h3]

/-- Witness for C7 at the unknown device name "led". -/
theorem c7_witness :
    open_lights "led" initState = (Except.error (-EINVAL), initState) :=
  c7_open_unknown_name "led" initState (by decide) (by decide) (by decide)

/-- C10: `set_light_backlight` writes only to `LCD_FILE` and leaves
`g_buttons` and `g_notification` unchanged; `set_light_buttons` writes
only to `BUTTON_FILE` and leaves `g_backlight` and `g_notification`
unchanged; and those two paths are distinct from the other four control
files. -/
theorem c10_frame_effects (wr : String → Int → Int) (st : SharedState)
    (s : LightState) :
    (set_light_backlight wr st s).2.1.map Prod.fst = [LCD_FILE]
    ∧ (set_light_backlight wr st s).2.2.g_buttons = st.g_buttons
    ∧ (set_light_backlight wr st s).2.2.g_notification = st.g_notification
    ∧ (set_light_buttons wr st s).2.1.map Prod.fst = [BUTTON_FILE]
    ∧ (set_light_buttons wr st s).2.2.g_backlight = st.g_backlight
    ∧ (set_light_buttons wr st s).2.2.g_notification = st.g_notification
    ∧ LCD_FILE ∉
        [KEYBOARD_FILE, BUTTON_FILE, NOTIFICATION_FILE, CM7_NOTIFICATION_FILE]
    ∧ BUTTON_FILE ∉
        [LCD_FILE, KEYBOARD_FILE, NOTIFICATION_FILE, CM7_NOTIFICATION_FILE] :=
  ⟨rfl, rfl, rfl, rfl, rfl, rfl, by decide, by decide⟩

set_option maxRecDepth 100000 in
/-- C1 counterexample: the color `0xFFFFFF1B` is nonzero, yet its
brightness is 229 and `229 + 0xFFFFFF1B` wraps to 0 in 32-bit unsigned
arithmetic, so the first trigger condition of the secondary-backlight
heuristic holds at a nonzero color. -/
theorem c1_counterexample :
    (0xFFFFFF1B : Nat) ≠ 0 ∧ (0xFFFFFF1B : Nat) < 2 ^ 32
      ∧ (rgb_to_brightness 0xFFFFFF1B + 0xFFFFFF1B) % 2 ^ 32 = 0 := by
  decide

/-- C1 (amended): the first trigger condition
`brightness + state.color == 0` of the secondary-backlight heuristic,
computed in 32-bit machine arithmetic, holds exactly when the color is 0
or the single nonzero value `0xFFFFFF1B` (whose brightness 229 makes the
sum wrap to `2^32`). -/
theorem c1_first_trigger_characterized (color : Nat) (h : color < 2 ^ 32) :
    (rgb_to_brightness color + color) % 2 ^ 32 = 0 ↔
      color = 0 ∨ color = 0xFFFFFF1B := by
  have hb : rgb_to_brightness color ≤ 255 := rgb_to_brightness_le color
  have e32 : (2 : Nat) ^ 32 = 4294967296 := by norm_num
  constructor
  · intro h0
    rw [e32] at h0 h
    have hcase : rgb_to_brightness color + color = 0
        ∨ rgb_to_brightness color + color = 4294967296 := by omega
    rcases hcase with h1 | h1
    · left
      omega
    · right
      have hcol : color = 4294967296 - rgb_to_brightness color := by omega
      have hfix : rgb_to_brightness (2 ^ 32 - rgb_to_brightness color)
          = rgb_to_brightness color := by
        rw [e32, ← hcol]
      have h229 : rgb_to_brightness color = 229 :=
        brightness_wrap_unique (rgb_to_brightness color) (by omega)
          (by omega) hfix
      omega
  · rintro (rfl | rfl)
    · decide
    · decide

set_option maxRecDepth 100000 in
/-- Witness for the amended C1 at the wraparound color `0xFFFFFF1B`. -/
theorem c1_witness :
    (rgb_to_brightness 0xFFFFFF1B + 0xFFFFFF1B) % 2 ^ 32 = 0 ↔
      (0xFFFFFF1B : Nat) = 0 ∨ (0xFFFFFF1B : Nat) = 0xFFFFFF1B :=
  c1_first_trigger_characterized 0xFFFFFF1B (by norm_num)

/-- C4 counterexample: with color 2 the state is lit, yet the stored
`g_buttons` field is 2 — the raw `is_lit` value — not the two-valued flag
1/0 the claim describes. -/
theorem c4_counterexample :
    is_lit 2 ≠ 0
    ∧ (set_light_buttons zeroWriter initState ⟨2, 0, 0, 0, 0⟩).2.2.g_buttons
        = 2
    ∧ ((set_light_buttons zeroWriter initState
        ⟨2, 0, 0, 0, 0⟩).2.2.g_buttons ≠ 1
      ∧ (set_light_buttons zeroWriter initState
        ⟨2, 0, 0, 0, 0⟩).2.2.g_buttons ≠ 0) := by
  refine ⟨by decide, rfl, by decide, by decide⟩

/-- C4 (amended): `set_light_buttons` stores the raw `is_lit` value (the
whole 32-bit color, not a 1/0 flag) in `g_buttons`; that value is nonzero
exactly when the state is lit; and the code written to `BUTTON_FILE` is
`BLN_LIGHT_ON` (1) when lit and `BLN_LIGHT_OFF` (2) otherwise, the write
result being returned unchanged. -/
theorem c4_buttons_state_and_code (wr : String → Int → Int)
    (st : SharedState) (s : LightState) (h : s.color < 2 ^ 32) :
    (set_light_buttons wr st s).2.2.g_buttons = is_lit s.color
    ∧ ((set_light_buttons wr st s).2.2.g_buttons ≠ 0 ↔ s.color ≠ 0)
    ∧ (set_light_buttons wr st s).2.1
        = [(BUTTON_FILE,
            if s.color ≠ 0 then BLN_LIGHT_ON else BLN_LIGHT_OFF)]
    ∧ (set_light_buttons wr st s).1
        = wr BUTTON_FILE
            (if s.color ≠ 0 then BLN_LIGHT_ON else BLN_LIGHT_OFF) := by
  have hite : (if is_lit s.color ≠ 0 then BLN_LIGHT_ON else BLN_LIGHT_OFF)
      = (if s.color ≠ 0 then BLN_LIGHT_ON else BLN_LIGHT_OFF) :=
    if_congr (is_lit_ne_zero_iff s.color h) rfl rfl
  refine ⟨rfl, is_lit_ne_zero_iff s.color h, ?_, ?_⟩
  · show [(BUTTON_FILE,
        if is_lit s.color ≠ 0 then BLN_LIGHT_ON else BLN_LIGHT_OFF)] = _
    rw [hite]
  · show wr BUTTON_FILE
        (if is_lit s.color ≠ 0 then BLN_LIGHT_ON else BLN_LIGHT_OFF) = _
    rw [hite]

/-- Witness for the amended C4 at the all-ones color `0xFFFFFFFF`. -/
theorem c4_witness :
    (set_light_buttons zeroWriter initState
        ⟨0xFFFFFFFF, 0, 0, 0, 0⟩).2.2.g_buttons = is_lit 0xFFFFFFFF
    ∧ ((set_light_buttons zeroWriter initState
        ⟨0xFFFFFFFF, 0, 0, 0, 0⟩).2.2.g_buttons ≠ 0
        ↔ (0xFFFFFFFF : Nat) ≠ 0)
    ∧ (set_light_buttons zeroWriter initState
        ⟨0xFFFFFFFF, 0, 0, 0, 0⟩).2.1
        = [(BUTTON_FILE,
            if (0xFFFFFFFF : Nat) ≠ 0 then BLN_LIGHT_ON else BLN_LIGHT_OFF)]
    ∧ (set_light_buttons zeroWriter initState
        ⟨0xFFFFFFFF, 0, 0, 0, 0⟩).1
        = zeroWriter BUTTON_FILE
            (if (0xFFFFFFFF : Nat) ≠ 0 then BLN_LIGHT_ON
             else BLN_LIGHT_OFF) :=
  c4_buttons_state_and_code zeroWriter initState ⟨0xFFFFFFFF, 0, 0, 0, 0⟩
    (by norm_num)

/-- C8: across any sequence of `write_int` calls starting from a fresh
process, the open-failure warning is emitted at most once in total (one
flag shared by all calls, whatever the path); every call's return value is
`resultOf`; and every open-failing call (with a positive OS `errno`)
returns the negative code `-errno`, warned or suppressed. -/
theorem c8_warning_once_and_error_codes (os : List WriteOutcome)
    (h : ∀ o ∈ os, o.openOk = false → 0 < o.errno) :
    warnCount (runWrites 0 os) ≤ 1
    ∧ (runWrites 0 os).map Prod.fst = os.map resultOf
    ∧ ∀ o ∈ os, o.openOk = false →
        resultOf o = -(o.errno : Int) ∧ resultOf o < 0 := by
  refine ⟨warnCount_le_one os, runWrites_map_fst 0 os, ?_⟩
  intro o ho hfail
  have hpos := h o ho hfail
  unfold resultOf
  rw [if_neg (by simp [hfail])]
  exact ⟨rfl, by omega⟩

/-- Witness for C8 on two open-failing calls to different control files. -/
theorem c8_witness :
    warnCount (runWrites 0 demoFailures) ≤ 1
    ∧ (runWrites 0 demoFailures).map Prod.fst = demoFailures.map resultOf
    ∧ ∀ o ∈ demoFailures, o.openOk = false →
        resultOf o = -(o.errno : Int) ∧ resultOf o < 0 :=
  c8_warning_once_and_error_codes demoFailures (by decide)

/-- C9: when two threads each run one of the three handler bodies under
the single shared lock, no reachable interleaving has both threads inside
their critical (update-then-write) sections at once: the handlers are
serialized. -/
theorem c9_mutual_exclusion (p0 p1 : List Action)
    (h0 : p0 ∈ handlerProgs) (h1 : p1 ∈ handlerProgs) (c : Config)
    (hr : Reachable p0 p1 c) : ¬ (inCS p0 c.pc0 ∧ inCS p1 c.pc1) := by
  have hl0 : p0.count Action.lock ≤ 1 := by
    fin_cases h0 <;> decide
  have hl1 : p1.count Action.lock ≤ 1 := by
    fin_cases h1 <;> decide
  rintro ⟨ha, hb⟩
  have hi := inv_reachable hl0 hl1 hr
  have e0 := hi.1 ha
  have e1 := hi.2 hb
  rw [e0] at e1
  exact absurd e1 (by simp)

/-- Witness for C9: after thread 0 (running the backlight handler) has
acquired the lock, thread 1 (running the notification handler) is not in
its critical section. -/
theorem c9_witness :
    ¬ (inCS prog_set_light_backlight 1
       ∧ inCS prog_set_light_notifications 0) :=
  c9_mutual_exclusion prog_set_light_backlight prog_set_light_notifications
    (by decide) (by decide) ⟨1, 0, some false⟩
    (Relation.ReflTransGen.single (Step.lock0 rfl rfl))

end Lights
